import Mathlib

/-!
Verification of the USB DFU 1.1 header `include/uapi/linux/usb/dfu.h`
and of the protocol engine its specification describes.

The header defines the wire-level vocabulary: descriptor layouts,
request opcodes, status codes and state codes. The wire codec and the
DFU state machine are not implemented in the repository; they are
modelled here from the specification, using the constants and packed
struct layouts of the header as the authority for every numeric value
and byte offset.
-/

namespace DFU

/-! ## Constants from the header -/

def USB_DT_DFU_FUNCTIONAL : Nat := 0x21

def USB_DFU_WILL_DETACH : Nat := 0x08

def USB_DFU_MANIFESTATION_TOLERANT : Nat := 0x04

def USB_DFU_CAN_UPLOAD : Nat := 0x02

def USB_DFU_CAN_DOWNLOAD : Nat := 0x01

def USB_DT_DFU_FUNCTIONAL_SIZE : Nat := 7

def USB_DT_DFU1_FUNCTIONAL_SIZE : Nat := 9

def USB_DFU_GETSTATUS_SIZE : Nat := 6

def USB_DFU_GETSTATE_SIZE : Nat := 1

def USB_DFU_BCD_VERSION_1_0 : Nat := 0x0100

/-! ## Status codes (USB_DFU_STATUS_*, header lines 96-128) -/

/-- The 16 status codes `USB_DFU_STATUS_OK` (0x00) through
`USB_DFU_STATUS_ERR_STALLEDPKT` (0x0F). -/
inductive StatusCode : Type
  | OK
  | ERR_TARGET
  | ERR_FILE
  | ERR_WRITE
  | ERR_ERASE
  | ERR_CHECK_ERASEED
  | ERR_PROG
  | ERR_VERIFY
  | ERR_ADDRESS
  | ERR_NOTDONE
  | ERR_FIRMWARE
  | ERR_VENDOR
  | ERR_USBR
  | ERR_POR
  | ERR_UNKNOWN
  | ERR_STALLEDPKT
  deriving DecidableEq, Repr, Fintype

/-- Numeric value of each status code, exactly the `USB_DFU_STATUS_*`
constants of the header. -/
def StatusCode.toByte : StatusCode → Nat
  | .OK => 0x00
  | .ERR_TARGET => 0x01
  | .ERR_FILE => 0x02
  | .ERR_WRITE => 0x03
  | .ERR_ERASE => 0x04
  | .ERR_CHECK_ERASEED => 0x05
  | .ERR_PROG => 0x06
  | .ERR_VERIFY => 0x07
  | .ERR_ADDRESS => 0x08
  | .ERR_NOTDONE => 0x09
  | .ERR_FIRMWARE => 0x0A
  | .ERR_VENDOR => 0x0B
  | .ERR_USBR => 0x0C
  | .ERR_POR => 0x0D
  | .ERR_UNKNOWN => 0x0E
  | .ERR_STALLEDPKT => 0x0F

/-- Modelled from the spec: fallible decode of a raw status byte
("enumerated variant ... with an explicit fallible decode from the raw
integer"); the numeric range is the header's 0x00..0x0F. -/
def StatusCode.ofByte (n : Nat) : Option StatusCode :=
  if n = 0x00 then some .OK
  else if n = 0x01 then some .ERR_TARGET
  else if n = 0x02 then some .ERR_FILE
  else if n = 0x03 then some .ERR_WRITE
  else if n = 0x04 then some .ERR_ERASE
  else if n = 0x05 then some .ERR_CHECK_ERASEED
  else if n = 0x06 then some .ERR_PROG
  else if n = 0x07 then some .ERR_VERIFY
  else if n = 0x08 then some .ERR_ADDRESS
  else if n = 0x09 then some .ERR_NOTDONE
  else if n = 0x0A then some .ERR_FIRMWARE
  else if n = 0x0B then some .ERR_VENDOR
  else if n = 0x0C then some .ERR_USBR
  else if n = 0x0D then some .ERR_POR
  else if n = 0x0E then some .ERR_UNKNOWN
  else if n = 0x0F then some .ERR_STALLEDPKT
  else none

/-! ## State codes (USB_DFU_STATE_*, header lines 132-161) -/

/-- The 11 state codes `USB_DFU_STATE_APP_IDLE` (0x00) through
`USB_DFU_STATE_DFU_ERROR` (0x0A). -/
inductive StateCode : Type
  | APP_IDLE
  | APP_DETACH
  | DFU_IDLE
  | DFU_DNLOAD_SYNC
  | DFU_DNBUSY
  | DFU_DNLOAD_IDLE
  | DFU_MANIFEST_SYNC
  | DFU_MANIFEST
  | DFU_MANIFEST_WAIT_RESET
  | DFU_UPLOAD_IDLE
  | DFU_ERROR
  deriving DecidableEq, Repr, Fintype

/-- Numeric value of each state code, exactly the `USB_DFU_STATE_*`
constants of the header. -/
def StateCode.toByte : StateCode → Nat
  | .APP_IDLE => 0x00
  | .APP_DETACH => 0x01
  | .DFU_IDLE => 0x02
  | .DFU_DNLOAD_SYNC => 0x03
  | .DFU_DNBUSY => 0x04
  | .DFU_DNLOAD_IDLE => 0x05
  | .DFU_MANIFEST_SYNC => 0x06
  | .DFU_MANIFEST => 0x07
  | .DFU_MANIFEST_WAIT_RESET => 0x08
  | .DFU_UPLOAD_IDLE => 0x09
  | .DFU_ERROR => 0x0A

/-- Modelled from the spec: fallible decode of a raw state byte;
unknown codes are a decode error, not a 12th state. The numeric range
is the header's 0x00..0x0A. -/
def StateCode.ofByte (n : Nat) : Option StateCode :=
  if n = 0x00 then some .APP_IDLE
  else if n = 0x01 then some .APP_DETACH
  else if n = 0x02 then some .DFU_IDLE
  else if n = 0x03 then some .DFU_DNLOAD_SYNC
  else if n = 0x04 then some .DFU_DNBUSY
  else if n = 0x05 then some .DFU_DNLOAD_IDLE
  else if n = 0x06 then some .DFU_MANIFEST_SYNC
  else if n = 0x07 then some .DFU_MANIFEST
  else if n = 0x08 then some .DFU_MANIFEST_WAIT_RESET
  else if n = 0x09 then some .DFU_UPLOAD_IDLE
  else if n = 0x0A then some .DFU_ERROR
  else none

/-! ## Request opcodes (USB_DFU_REQUEST_*, header lines 77-83) -/

/-- The seven DFU control requests. `DNLOAD` carries the payload
length (`wLength`); `UPLOAD` carries whether the backend read came up
short or empty, which the spec's transition table consults. -/
inductive Req : Type
  | DETACH
  | DNLOAD (len : Nat)
  | UPLOAD (shortRead : Bool)
  | GETSTATUS
  | CLRSTATUS
  | GETSTATE
  | ABORT
  deriving DecidableEq, Repr

/-- Opcode of each request, exactly the `USB_DFU_REQUEST_*`
constants of the header. -/
def Req.code : Req → Nat
  | .DETACH => 0x00
  | .DNLOAD _ => 0x01
  | .UPLOAD _ => 0x02
  | .GETSTATUS => 0x03
  | .CLRSTATUS => 0x04
  | .GETSTATE => 0x05
  | .ABORT => 0x06

/-! ## Wire structures (packed struct layouts of the header) -/

/-- Decode failures of the wire codec. -/
inductive DecodeError : Type
  | LengthMismatch
  | UnknownCode (raw : Nat)
  deriving DecidableEq, Repr

/-- Field content of `struct usb_dfu_descriptor` (7 packed bytes):
bLength, bDescriptorType, bmAttributes are single bytes;
wDetachTimeOut and wTransferSize are little-endian __u16. -/
structure usb_dfu_descriptor : Type where
  bLength : Nat
  bDescriptorType : Nat
  bmAttributes : Nat
  wDetachTimeOut : Nat
  wTransferSize : Nat
  deriving DecidableEq, Repr

/-- Field content of `struct usb_dfu1_descriptor` (9 packed bytes):
the same five fields as `usb_dfu_descriptor` at the same offsets,
followed by the little-endian __u16 bcdDFUVersion. -/
structure usb_dfu1_descriptor : Type where
  bLength : Nat
  bDescriptorType : Nat
  bmAttributes : Nat
  wDetachTimeOut : Nat
  wTransferSize : Nat
  bcdDFUVersion : Nat
  deriving DecidableEq, Repr

/-- Field content of `struct usb_dfu_getstatus` (6 packed bytes):
bStatus (1 byte), bwPollTimeout (a 24-bit little-endian bit-field
spanning 3 bytes), bState (1 byte), iString (1 byte). -/
structure usb_dfu_getstatus : Type where
  bStatus : StatusCode
  bwPollTimeout : Nat
  bState : StateCode
  iString : Nat
  deriving DecidableEq, Repr

/-- Field content of `struct usb_dfu_getstate` (1 packed byte). -/
structure usb_dfu_getstate : Type where
  bState : StateCode
  deriving DecidableEq, Repr

/-! ## Wire codec

Modelled from the spec: `encode(struct) -> fixed-size byte sequence`,
`decode(bytes) -> Result<struct, DecodeError>`; all multi-byte fields
little-endian; byte offsets and sizes from the header's packed
structs. -/

/-- Modelled from the spec: encode `struct usb_dfu_getstatus` to its
6 wire bytes. The 24-bit poll timeout occupies bytes 1..3
little-endian; any higher bits of the value are zeroed by taking only
those 3 bytes. -/
def encodeGetStatus (s : usb_dfu_getstatus) : List Nat :=
  [s.bStatus.toByte,
   s.bwPollTimeout % 256,
   s.bwPollTimeout / 256 % 256,
   s.bwPollTimeout / 65536 % 256,
   s.bState.toByte,
   s.iString % 256]

/-- Modelled from the spec: decode 6 wire bytes into
`struct usb_dfu_getstatus`. Fails with `LengthMismatch` unless the
buffer is exactly `USB_DFU_GETSTATUS_SIZE` bytes; fails with
`UnknownCode` on a status or state byte outside the enumerated
range. Bytes 1..3 are extracted as the unsigned little-endian
24-bit poll timeout and byte 4 as `bState`. -/
def decodeGetStatus (bs : List Nat) : Except DecodeError usb_dfu_getstatus :=
  if bs.length = USB_DFU_GETSTATUS_SIZE then
    match StatusCode.ofByte (bs.getD 0 0) with
    | none => .error (.UnknownCode (bs.getD 0 0))
    | some st =>
      match StateCode.ofByte (bs.getD 4 0) with
      | none => .error (.UnknownCode (bs.getD 4 0))
      | some sta =>
        .ok { bStatus := st,
              bwPollTimeout := bs.getD 1 0 + 256 * bs.getD 2 0 + 65536 * bs.getD 3 0,
              bState := sta,
              iString := bs.getD 5 0 }
  else .error .LengthMismatch

/-- Modelled from the spec: encode `struct usb_dfu_getstate` to its
single wire byte. -/
def encodeGetState (s : usb_dfu_getstate) : List Nat :=
  [s.bState.toByte]

/-- Modelled from the spec: decode 1 wire byte into
`struct usb_dfu_getstate`; `LengthMismatch` unless the buffer is
exactly `USB_DFU_GETSTATE_SIZE` bytes, `UnknownCode` on a state byte
outside the enumerated range. -/
def decodeGetState (bs : List Nat) : Except DecodeError usb_dfu_getstate :=
  if bs.length = USB_DFU_GETSTATE_SIZE then
    match StateCode.ofByte (bs.getD 0 0) with
    | none => .error (.UnknownCode (bs.getD 0 0))
    | some sta => .ok { bState := sta }
  else .error .LengthMismatch

/-- Modelled from the spec: encode `struct usb_dfu_descriptor` to its
7 wire bytes (three single bytes, then two little-endian __u16). -/
def encodeFunctional (d : usb_dfu_descriptor) : List Nat :=
  [d.bLength % 256,
   d.bDescriptorType % 256,
   d.bmAttributes % 256,
   d.wDetachTimeOut % 256,
   d.wDetachTimeOut / 256 % 256,
   d.wTransferSize % 256,
   d.wTransferSize / 256 % 256]

/-- Modelled from the spec: decode 7 wire bytes into
`struct usb_dfu_descriptor`; `LengthMismatch` unless the buffer is
exactly `USB_DT_DFU_FUNCTIONAL_SIZE` bytes. -/
def decodeFunctional (bs : List Nat) : Except DecodeError usb_dfu_descriptor :=
  if bs.length = USB_DT_DFU_FUNCTIONAL_SIZE then
    .ok { bLength := bs.getD 0 0,
          bDescriptorType := bs.getD 1 0,
          bmAttributes := bs.getD 2 0,
          wDetachTimeOut := bs.getD 3 0 + 256 * bs.getD 4 0,
          wTransferSize := bs.getD 5 0 + 256 * bs.getD 6 0 }
  else .error .LengthMismatch

/-- Modelled from the spec: encode `struct usb_dfu1_descriptor` to its
9 wire bytes: the 7 bytes of the version-less layout followed by the
little-endian bcdDFUVersion. -/
def encodeFunctional1 (d : usb_dfu1_descriptor) : List Nat :=
  [d.bLength % 256,
   d.bDescriptorType % 256,
   d.bmAttributes % 256,
   d.wDetachTimeOut % 256,
   d.wDetachTimeOut / 256 % 256,
   d.wTransferSize % 256,
   d.wTransferSize / 256 % 256,
   d.bcdDFUVersion % 256,
   d.bcdDFUVersion / 256 % 256]

/-- Modelled from the spec: decode 9 wire bytes into
`struct usb_dfu1_descriptor`; `LengthMismatch` unless the buffer is
exactly `USB_DT_DFU1_FUNCTIONAL_SIZE` bytes. -/
def decodeFunctional1 (bs : List Nat) : Except DecodeError usb_dfu1_descriptor :=
  if bs.length = USB_DT_DFU1_FUNCTIONAL_SIZE then
    .ok { bLength := bs.getD 0 0,
          bDescriptorType := bs.getD 1 0,
          bmAttributes := bs.getD 2 0,
          wDetachTimeOut := bs.getD 3 0 + 256 * bs.getD 4 0,
          wTransferSize := bs.getD 5 0 + 256 * bs.getD 6 0,
          bcdDFUVersion := bs.getD 7 0 + 256 * bs.getD 8 0 }
  else .error .LengthMismatch

/-- Shared fields of a versioned descriptor, as a version-less
descriptor. -/
def dropVersion (d : usb_dfu1_descriptor) : usb_dfu_descriptor :=
  { bLength := d.bLength,
    bDescriptorType := d.bDescriptorType,
    bmAttributes := d.bmAttributes,
    wDetachTimeOut := d.wDetachTimeOut,
    wTransferSize := d.wTransferSize }

/-! ## DFU state machine

Modelled from the spec (section 4.2): the transition table over
(current state, request), its guards, and the asynchronous completion
events; plus section 4.3's GETSTATUS snapshot rule. -/

/-- Protocol-level failures: a request rejected by the state machine
is stalled, never silently accepted. -/
inductive ProtocolError : Type
  | InvalidTransition
  | Stalled
  deriving DecidableEq, Repr

/-- Capability flags of the functional descriptor's bmAttributes,
consulted by the transition guards. -/
structure Caps : Type where
  willDetach : Bool
  manifestationTolerant : Bool
  canUpload : Bool
  canDownload : Bool
  deriving DecidableEq, Repr

/-- Device configuration for the responder engine: capabilities and
the device-specified poll timeout reported while a DNBUSY/MANIFEST
backend operation is in flight. -/
structure DevCfg : Type where
  caps : Caps
  busyPollMs : Nat
  deriving DecidableEq, Repr

/-- Modelled from the spec: the responder engine's runtime state —
current StateCode, current StatusCode, whether a backend write is
pending (guard of the DNLOAD_SYNC → DNBUSY row), whether a backend
operation (flash write or manifestation) is in flight, and the poll
timeout to report while it is. -/
structure Engine : Type where
  state : StateCode
  status : StatusCode
  writePending : Bool
  opPending : Bool
  pollMs : Nat
  deriving DecidableEq, Repr

/-- The engine before any interaction: the device runs its normal
application. -/
def initEngine : Engine :=
  { state := .APP_IDLE, status := .OK, writePending := false,
    opPending := false, pollMs := 0 }

/-- States from which ABORT is accepted: any non-error, non-idle DFU
state (spec 4.2 rationale). -/
def abortOk : StateCode → Bool
  | .DFU_DNLOAD_SYNC => true
  | .DFU_DNBUSY => true
  | .DFU_DNLOAD_IDLE => true
  | .DFU_MANIFEST_SYNC => true
  | .DFU_MANIFEST => true
  | .DFU_MANIFEST_WAIT_RESET => true
  | .DFU_UPLOAD_IDLE => true
  | _ => false

/-- Rejection: the request is stalled and the engine is left
unchanged. -/
def stall (e : Engine) : Engine × Except ProtocolError Unit :=
  (e, .error .Stalled)

/-- Modelled from the spec: the transition table of section 4.2
applied to one request. Rows are exactly the request-driven rows of
the table, plus the ABORT rule and the DFU_IDLE zero-length DNLOAD
rule of the rationale; every (state, request) pair without a row is a
no-op for the request and stalls. -/
def applyReq (cfg : DevCfg) (e : Engine) (r : Req) :
    Engine × Except ProtocolError Unit :=
  match e.state, r with
  | .APP_IDLE, .DETACH =>
    if cfg.caps.willDetach then
      ({ e with state := .APP_DETACH }, .ok ())
    else stall e
  | .DFU_IDLE, .DNLOAD n =>
    if n = 0 then
      ({ e with status := .ERR_STALLEDPKT }, .error .Stalled)
    else
      ({ e with state := .DFU_DNLOAD_SYNC, writePending := true }, .ok ())
  | .DFU_IDLE, .UPLOAD _ =>
    if cfg.caps.canUpload then
      ({ e with state := .DFU_UPLOAD_IDLE }, .ok ())
    else stall e
  | .DFU_DNLOAD_SYNC, .GETSTATUS =>
    if e.writePending then
      ({ e with state := .DFU_DNBUSY, opPending := true,
                pollMs := cfg.busyPollMs }, .ok ())
    else stall e
  | .DFU_DNLOAD_IDLE, .DNLOAD n =>
    if n = 0 then
      ({ e with state := .DFU_MANIFEST_SYNC, writePending := false }, .ok ())
    else
      ({ e with state := .DFU_DNLOAD_SYNC, writePending := true }, .ok ())
  | .DFU_MANIFEST_SYNC, .GETSTATUS =>
    if cfg.caps.manifestationTolerant then
      ({ e with state := .DFU_IDLE }, .ok ())
    else
      ({ e with state := .DFU_MANIFEST, opPending := true,
                pollMs := cfg.busyPollMs }, .ok ())
  | .DFU_UPLOAD_IDLE, .UPLOAD shortRead =>
    if shortRead then
      ({ e with state := .DFU_IDLE }, .ok ())
    else stall e
  | .DFU_ERROR, .CLRSTATUS =>
    ({ e with state := .DFU_IDLE, status := .OK }, .ok ())
  | s, .ABORT =>
    if abortOk s then
      ({ e with state := .DFU_IDLE, writePending := false,
                opPending := false }, .ok ())
    else stall e
  | _, _ => stall e

/-- Whether the transition table has a row for a (state, request)
pair, guards aside: the request-driven rows of the spec's table, the
ABORT rule, and nothing else. -/
def hasRow : StateCode → Req → Bool
  | .APP_IDLE, .DETACH => true
  | .DFU_IDLE, .DNLOAD n => n != 0
  | .DFU_IDLE, .UPLOAD _ => true
  | .DFU_DNLOAD_SYNC, .GETSTATUS => true
  | .DFU_DNLOAD_IDLE, .DNLOAD _ => true
  | .DFU_MANIFEST_SYNC, .GETSTATUS => true
  | .DFU_UPLOAD_IDLE, .UPLOAD shortRead => shortRead
  | .DFU_ERROR, .CLRSTATUS => true
  | s, .ABORT => abortOk s
  | _, _ => false

/-- Modelled from the spec: the poll timeout GETSTATUS reports —
the device-specified busy interval while a backend operation is in
flight, else zero. -/
def getStatusPoll (e : Engine) : Nat :=
  if e.opPending then e.pollMs else 0

/-- Modelled from the spec: the GETSTATUS snapshot of the current
(status, poll timeout, state). -/
def getStatusResp (e : Engine) : usb_dfu_getstatus :=
  { bStatus := e.status, bwPollTimeout := getStatusPoll e,
    bState := e.state, iString := 0 }

/-- The DFU-mode states (everything but the two application-mode
states), in which an unguarded backend fault forces DFU_ERROR. -/
def isDfuState : StateCode → Bool
  | .APP_IDLE => false
  | .APP_DETACH => false
  | _ => true

/-- Modelled from the spec: one step of the engine — either a
request arriving, or one of the asynchronous events of the table
(bus reset leaving APP_DETACH, poll timeout elapsing with the write
committed, manifestation completing, an unguarded backend fault). -/
inductive Step (cfg : DevCfg) : Engine → Engine → Prop
  | req (e : Engine) (r : Req) : Step cfg e (applyReq cfg e r).1
  | busReset (e : Engine) (h : e.state = .APP_DETACH) :
      Step cfg e { e with state := .DFU_IDLE }
  | pollElapsed (e : Engine) (h : e.state = .DFU_DNBUSY) :
      Step cfg e { e with state := .DFU_DNLOAD_IDLE,
                          writePending := false, opPending := false }
  | manifestGood (e : Engine) (h : e.state = .DFU_MANIFEST) :
      Step cfg e { e with
        state := if cfg.caps.manifestationTolerant then .DFU_IDLE
                 else .DFU_MANIFEST_WAIT_RESET,
        opPending := false }
  | manifestBad (e : Engine) (h : e.state = .DFU_MANIFEST) :
      Step cfg e { e with state := .DFU_ERROR, status := .ERR_FIRMWARE,
                          opPending := false }
  | fault (e : Engine) (code : StatusCode) (h : isDfuState e.state = true) :
      Step cfg e { e with state := .DFU_ERROR, status := code,
                          writePending := false, opPending := false }

/-- Engine states reachable from the initial state under a fixed
device configuration. -/
inductive Reachable (cfg : DevCfg) : Engine → Prop
  | init : Reachable cfg initEngine
  | step {e e' : Engine} (hr : Reachable cfg e) (hs : Step cfg e e') :
      Reachable cfg e'

/-! ## Helper lemmas -/

/-- Decoding the byte of a state code recovers the code. -/
lemma stateOfByte_toByte (s : StateCode) :
    StateCode.ofByte s.toByte = some s := by
  cases s <;> rfl

/-- Decoding the byte of a status code recovers the code. -/
lemma statusOfByte_toByte (c : StatusCode) :
    StatusCode.ofByte c.toByte = some c := by
  cases c <;> rfl

/-- Bytes at or above 0x0B are not state codes. -/
lemma stateOfByte_none (n : Nat) (h : 11 ≤ n) : StateCode.ofByte n = none := by
  obtain ⟨m, rfl⟩ : ∃ m, n = m + 11 := ⟨n - 11, by omega⟩
  rfl

/-- Bytes at or above 0x10 are not status codes. -/
lemma statusOfByte_none (n : Nat) (h : 16 ≤ n) : StatusCode.ofByte n = none := by
  obtain ⟨m, rfl⟩ : ∃ m, n = m + 16 := ⟨n - 16, by omega⟩
  rfl

/-- State-code decode succeeds exactly on the contiguous range
0x00..0x0A. -/
lemma stateOfByte_isSome (n : Nat) :
    (StateCode.ofByte n).isSome = true ↔ n < 11 := by
  constructor
  · intro hs
    by_contra hn
    push_neg at hn
    rw [stateOfByte_none n hn] at hs
    simp at hs
  · intro hlt
    interval_cases n <;> rfl

/-- Status-code decode succeeds exactly on the contiguous range
0x00..0x0F. -/
lemma statusOfByte_isSome (n : Nat) :
    (StatusCode.ofByte n).isSome = true ↔ n < 16 := by
  constructor
  · intro hs
    by_contra hn
    push_neg at hn
    rw [statusOfByte_none n hn] at hs
    simp at hs
  · intro hlt
    interval_cases n <;> rfl

/-- The three little-endian bytes of a value reassemble to the value
reduced modulo 2^24. -/
lemma three_bytes_mod (t : Nat) :
    t % 256 + 256 * (t / 256 % 256) + 65536 * (t / 65536 % 256) =
      t % 16777216 := by
  omega

/-- The two little-endian bytes of a value reassemble to the value
reduced modulo 2^16. -/
lemma two_bytes_mod (t : Nat) :
    t % 256 + 256 * (t / 256 % 256) = t % 65536 := by
  omega

/-! ## Claim theorems -/

/-- C1: for every valid StateCode value (the 11 codes 0x00..0x0A) and
every valid StatusCode value (the 16 codes 0x00..0x0F), decoding the
byte produced by encoding the value yields the value back:
decode(encode(x)) = x. -/
theorem C1_code_roundtrip :
    (∀ s : StateCode, StateCode.ofByte s.toByte = some s) ∧
    (∀ c : StatusCode, StatusCode.ofByte c.toByte = some c) :=
  ⟨stateOfByte_toByte, statusOfByte_toByte⟩

/-- C1 witness: the round trip at the concrete codes DFU_IDLE and
ERR_VERIFY. -/
theorem C1_code_roundtrip_witness :
    StateCode.ofByte (StateCode.toByte .DFU_IDLE) = some .DFU_IDLE ∧
    StatusCode.ofByte (StatusCode.toByte .ERR_VERIFY) = some .ERR_VERIFY :=
  ⟨C1_code_roundtrip.1 .DFU_IDLE, C1_code_roundtrip.2 .ERR_VERIFY⟩

/-- C2: every buffer whose length is not exactly the defined structure
size (6 for status, 1 for state, 7 for the version-less functional
descriptor, 9 for the versioned one) fails to decode with
LengthMismatch; in particular a 5-byte buffer fails to decode as a
status structure. -/
theorem C2_length_mismatch :
    ∀ bs : List Nat,
      (bs.length ≠ USB_DFU_GETSTATUS_SIZE →
        decodeGetStatus bs = .error .LengthMismatch) ∧
      (bs.length ≠ USB_DFU_GETSTATE_SIZE →
        decodeGetState bs = .error .LengthMismatch) ∧
      (bs.length ≠ USB_DT_DFU_FUNCTIONAL_SIZE →
        decodeFunctional bs = .error .LengthMismatch) ∧
      (bs.length ≠ USB_DT_DFU1_FUNCTIONAL_SIZE →
        decodeFunctional1 bs = .error .LengthMismatch) ∧
      decodeGetStatus [0, 0, 0, 0, 0] = .error .LengthMismatch := by
  intro bs
  refine ⟨?_, ?_, ?_, ?_, rfl⟩ <;> intro h <;>
    simp [decodeGetStatus, decodeGetState, decodeFunctional,
          decodeFunctional1, h]

/-- C2 witness: a 5-byte buffer is rejected as a status structure and
a 2-byte buffer is rejected as a state structure. -/
theorem C2_length_mismatch_witness :
    decodeGetStatus [0, 0, 0, 0, 0] = .error .LengthMismatch ∧
    decodeGetState [0, 0] = .error .LengthMismatch :=
  ⟨(C2_length_mismatch [0, 0, 0, 0, 0]).2.2.2.2,
   (C2_length_mismatch [0, 0]).2.1 (by decide)⟩

/-- C3: raw bytes outside the enumerated StateCode range (0x00..0x0A)
or StatusCode range (0x00..0x0F) fail to decode, and structure decode
reports UnknownCode carrying the raw value rather than coercing it; in
particular bState = 0x0B fails with UnknownCode 0x0B. -/
theorem C3_unknown_code :
    (∀ n : Nat, 11 ≤ n → StateCode.ofByte n = none) ∧
    (∀ n : Nat, 16 ≤ n → StatusCode.ofByte n = none) ∧
    (∀ b : Nat, StateCode.ofByte b = none →
      decodeGetState [b] = .error (.UnknownCode b)) ∧
    (∀ b0 b1 b2 b3 b5 : Nat, ∀ b4 : Nat, StateCode.ofByte b4 = none →
      (∃ st, StatusCode.ofByte b0 = some st) →
      decodeGetStatus [b0, b1, b2, b3, b4, b5] = .error (.UnknownCode b4)) ∧
    decodeGetState [0x0B] = .error (.UnknownCode 0x0B) := by
  refine ⟨stateOfByte_none, statusOfByte_none, ?_, ?_, rfl⟩
  · intro b h
    simp [decodeGetState, USB_DFU_GETSTATE_SIZE, h]
  · intro b0 b1 b2 b3 b5 b4 h4 ⟨st, h0⟩
    simp [decodeGetStatus, USB_DFU_GETSTATUS_SIZE, h0, h4]

/-- C3 witness: byte 0x0B rejected as a state code, both alone and as
the bState byte of a full status buffer. -/
theorem C3_unknown_code_witness :
    decodeGetState [0x0B] = .error (.UnknownCode 0x0B) ∧
    decodeGetStatus [0, 0, 0, 0, 0x0B, 0] = .error (.UnknownCode 0x0B) :=
  ⟨C3_unknown_code.2.2.1 0x0B (by decide),
   C3_unknown_code.2.2.2.1 0 0 0 0 0 0x0B (by decide) ⟨.OK, by decide⟩⟩

/-- C4: the GETSTATUS response encodes to exactly 6 bytes laid out
little-endian as bStatus, the 3-byte poll timeout, bState, iString;
decode extracts exactly 3 bytes for the timeout and the 4th byte as
bState; encode zeroes any bits of the timeout above the low 24. -/
theorem C4_getstatus_layout :
    ∀ s : usb_dfu_getstatus,
      (encodeGetStatus s).length = USB_DFU_GETSTATUS_SIZE ∧
      encodeGetStatus s =
        [s.bStatus.toByte, s.bwPollTimeout % 256, s.bwPollTimeout / 256 % 256,
         s.bwPollTimeout / 65536 % 256, s.bState.toByte, s.iString % 256] ∧
      decodeGetStatus (encodeGetStatus s) =
        .ok { s with bwPollTimeout := s.bwPollTimeout % 16777216,
                     iString := s.iString % 256 } ∧
      (∀ b0 b1 b2 b3 b4 b5 : Nat, ∀ st : StatusCode, ∀ sta : StateCode,
        StatusCode.ofByte b0 = some st → StateCode.ofByte b4 = some sta →
        decodeGetStatus [b0, b1, b2, b3, b4, b5] =
          .ok { bStatus := st,
                bwPollTimeout := b1 + 256 * b2 + 65536 * b3,
                bState := sta, iString := b5 }) := by
  intro s
  refine ⟨rfl, rfl, ?_, ?_⟩
  · simp [decodeGetStatus, encodeGetStatus, USB_DFU_GETSTATUS_SIZE,
          statusOfByte_toByte, stateOfByte_toByte, three_bytes_mod]
  · intro b0 b1 b2 b3 b4 b5 st sta h0 h4
    simp [decodeGetStatus, USB_DFU_GETSTATUS_SIZE, h0, h4]

/-- C4 witness: a concrete status buffer decodes with the timeout
assembled from bytes 1..3 and the state from byte 4. -/
theorem C4_getstatus_layout_witness :
    decodeGetStatus [0x00, 0x10, 0x02, 0x00, 0x04, 0x07] =
      .ok { bStatus := .OK,
            bwPollTimeout := 0x10 + 256 * 0x02 + 65536 * 0x00,
            bState := .DFU_DNBUSY, iString := 0x07 } :=
  (C4_getstatus_layout ⟨.OK, 0, .APP_IDLE, 0⟩).2.2.2
    0x00 0x10 0x02 0x00 0x04 0x07 .OK .DFU_DNBUSY (by decide) (by decide)

/-- C5: every (current state, request) pair without a row in the
transition table leaves the engine's state unchanged and stalls the
request, never silently accepting it. -/
theorem C5_no_row_stalls :
    ∀ (cfg : DevCfg) (e : Engine) (r : Req),
      hasRow e.state r = false →
      (applyReq cfg e r).1.state = e.state ∧
      (applyReq cfg e r).2 = .error .Stalled := by
  intro cfg e r h
  obtain ⟨st, stat, wp, op, pm⟩ := e
  cases st <;> cases r <;>
    simp_all [hasRow, applyReq, stall, abortOk]

/-- C5 witness: CLRSTATUS in APP_IDLE has no row; the initial engine
rejects it with Stalled and keeps its state. -/
theorem C5_no_row_stalls_witness :
    (applyReq ⟨⟨true, true, true, true⟩, 5⟩ initEngine .CLRSTATUS).1.state =
      initEngine.state ∧
    (applyReq ⟨⟨true, true, true, true⟩, 5⟩ initEngine .CLRSTATUS).2 =
      .error .Stalled :=
  C5_no_row_stalls ⟨⟨true, true, true, true⟩, 5⟩ initEngine .CLRSTATUS rfl

/-- The engine invariant behind the poll-timeout rule: a backend
operation is in flight exactly in the busy states DNBUSY and
MANIFEST, and while one is in flight the reported interval is the
device-specified busy poll timeout. -/
def EngineInv (cfg : DevCfg) (e : Engine) : Prop :=
  (e.opPending = true ↔
    (e.state = .DFU_DNBUSY ∨ e.state = .DFU_MANIFEST)) ∧
  (e.opPending = true → e.pollMs = cfg.busyPollMs)

/-- The initial engine satisfies the invariant. -/
lemma engineInv_init (cfg : DevCfg) : EngineInv cfg initEngine := by
  constructor <;> simp [initEngine]

/-- Every request application preserves the invariant. -/
lemma engineInv_applyReq (cfg : DevCfg) (e : Engine) (r : Req)
    (h : EngineInv cfg e) : EngineInv cfg (applyReq cfg e r).1 := by
  obtain ⟨st, stat, wp, op, pm⟩ := e
  obtain ⟨h1, h2⟩ := h
  simp only [EngineInv] at *
  cases st <;> cases r <;>
    (try simp_all [applyReq, stall, abortOk]) <;>
    (try split_ifs) <;> simp_all

/-- Every step (request or asynchronous event) preserves the
invariant. -/
lemma engineInv_step (cfg : DevCfg) {e e' : Engine}
    (hs : Step cfg e e') (h : EngineInv cfg e) : EngineInv cfg e' := by
  cases hs with
  | req r => exact engineInv_applyReq cfg e r h
  | busReset hst =>
    obtain ⟨h1, h2⟩ := h
    constructor <;> simp_all [EngineInv]
  | pollElapsed hst =>
    constructor <;> simp [EngineInv]
  | manifestGood hst =>
    constructor <;> cases cfg.caps.manifestationTolerant <;> simp_all
  | manifestBad hst =>
    constructor <;> simp [EngineInv]
  | fault code hst =>
    constructor <;> simp [EngineInv]

/-- Every reachable engine state satisfies the invariant. -/
lemma engineInv_reach (cfg : DevCfg) (e : Engine) (h : Reachable cfg e) :
    EngineInv cfg e := by
  induction h with
  | init => exact engineInv_init cfg
  | step hr hs ih => exact engineInv_step cfg hs ih

/-- C6: in every reachable engine state, the poll timeout that
GETSTATUS returns is nonzero exactly when the current state is
DFU_DNBUSY or DFU_MANIFEST and the backend operation is still in
flight; in every other state GETSTATUS reports a zero poll timeout. -/
theorem C6_poll_timeout_iff :
    ∀ cfg : DevCfg, 0 < cfg.busyPollMs →
    ∀ e : Engine, Reachable cfg e →
      ((getStatusResp e).bwPollTimeout ≠ 0 ↔
        ((e.state = .DFU_DNBUSY ∨ e.state = .DFU_MANIFEST) ∧
          e.opPending = true)) := by
  intro cfg hpos e hr
  obtain ⟨h1, h2⟩ := engineInv_reach cfg e hr
  cases hop : e.opPending with
  | false =>
    simp [getStatusResp, getStatusPoll, hop]
  | true =>
    have hb := h1.mp hop
    have hp := h2 hop
    have hval : (getStatusResp e).bwPollTimeout = cfg.busyPollMs := by
      simp [getStatusResp, getStatusPoll, hop, hp]
    rw [hval]
    constructor
    · intro _
      exact ⟨hb, rfl⟩
    · intro _
      omega

/-- Device configuration used by concrete protocol runs: all four
capabilities set, busy poll timeout 5 ms. -/
def cfg0 : DevCfg := ⟨⟨true, true, true, true⟩, 5⟩

/-- C6 witness: the engine driven from the initial state through
DETACH, bus reset, a data-bearing DNLOAD and GETSTATUS reaches
DFU_DNBUSY with the operation in flight, and there the claim's
equivalence holds with both sides true. -/
theorem C6_poll_timeout_iff_witness :
    (getStatusResp ⟨.DFU_DNBUSY, .OK, true, true, 5⟩).bwPollTimeout ≠ 0 ↔
      ((Engine.state ⟨.DFU_DNBUSY, .OK, true, true, 5⟩ = .DFU_DNBUSY ∨
        Engine.state ⟨.DFU_DNBUSY, .OK, true, true, 5⟩ = .DFU_MANIFEST) ∧
       Engine.opPending ⟨.DFU_DNBUSY, .OK, true, true, 5⟩ = true) :=
  C6_poll_timeout_iff cfg0 (by decide) ⟨.DFU_DNBUSY, .OK, true, true, 5⟩
    (Reachable.step
      (Reachable.step
        (Reachable.step
          (Reachable.step Reachable.init (Step.req initEngine .DETACH))
          (Step.busReset _ rfl))
        (Step.req _ (.DNLOAD 1)))
      (Step.req _ .GETSTATUS))

/-- C7: StatusCode has exactly 16 named values; OK encodes to 0x00 and
is the only non-error value; the 15 failure codes are distinct and
occupy 0x01 through 0x0F. -/
theorem C7_statuscode_values :
    Fintype.card StatusCode = 16 ∧
    StatusCode.toByte .OK = 0x00 ∧
    Function.Injective StatusCode.toByte ∧
    (∀ c : StatusCode, c ≠ .OK →
      1 ≤ StatusCode.toByte c ∧ StatusCode.toByte c ≤ 0x0F) ∧
    (∀ n : Nat, 1 ≤ n → n ≤ 0x0F → ∃ c : StatusCode, c ≠ .OK ∧
      StatusCode.toByte c = n) := by
  refine ⟨rfl, rfl, ?_, by decide, ?_⟩
  · intro a b hab
    have h := congrArg StatusCode.ofByte hab
    rw [statusOfByte_toByte, statusOfByte_toByte] at h
    exact Option.some.inj h
  · intro n h1 h15
    interval_cases n <;>
      first
        | exact ⟨.ERR_TARGET, by decide, rfl⟩
        | exact ⟨.ERR_FILE, by decide, rfl⟩
        | exact ⟨.ERR_WRITE, by decide, rfl⟩
        | exact ⟨.ERR_ERASE, by decide, rfl⟩
        | exact ⟨.ERR_CHECK_ERASEED, by decide, rfl⟩
        | exact ⟨.ERR_PROG, by decide, rfl⟩
        | exact ⟨.ERR_VERIFY, by decide, rfl⟩
        | exact ⟨.ERR_ADDRESS, by decide, rfl⟩
        | exact ⟨.ERR_NOTDONE, by decide, rfl⟩
        | exact ⟨.ERR_FIRMWARE, by decide, rfl⟩
        | exact ⟨.ERR_VENDOR, by decide, rfl⟩
        | exact ⟨.ERR_USBR, by decide, rfl⟩
        | exact ⟨.ERR_POR, by decide, rfl⟩
        | exact ⟨.ERR_UNKNOWN, by decide, rfl⟩
        | exact ⟨.ERR_STALLEDPKT, by decide, rfl⟩

/-- C7 witness: the failure-code bound at ERR_STALLEDPKT and the
existence of a failure code at 0x0B. -/
theorem C7_statuscode_values_witness :
    (1 ≤ StatusCode.toByte .ERR_STALLEDPKT ∧
      StatusCode.toByte .ERR_STALLEDPKT ≤ 0x0F) ∧
    ∃ c : StatusCode, c ≠ .OK ∧ StatusCode.toByte c = 0x0B :=
  ⟨C7_statuscode_values.2.2.2.1 .ERR_STALLEDPKT (by decide),
   C7_statuscode_values.2.2.2.2 0x0B (by decide) (by decide)⟩

/-- C8: the seven request opcodes are the fixed constants
DETACH=0x00, DNLOAD=0x01, UPLOAD=0x02, GETSTATUS=0x03, CLRSTATUS=0x04,
GETSTATE=0x05, ABORT=0x06; `Req.code` is a pure constant function of
the request alone, so no engine operation can change them. -/
theorem C8_request_codes :
    Req.code .DETACH = 0x00 ∧
    (∀ n : Nat, Req.code (.DNLOAD n) = 0x01) ∧
    (∀ b : Bool, Req.code (.UPLOAD b) = 0x02) ∧
    Req.code .GETSTATUS = 0x03 ∧
    Req.code .CLRSTATUS = 0x04 ∧
    Req.code .GETSTATE = 0x05 ∧
    Req.code .ABORT = 0x06 :=
  ⟨rfl, fun _ => rfl, fun _ => rfl, rfl, rfl, rfl, rfl⟩

/-- C9: the 9-byte versioned functional descriptor extends the 7-byte
one compatibly: its encoding's first 7 bytes are exactly the encoding
of the shared fields, and decoding those 7 bytes as the version-less
descriptor agrees with the versioned decode on every shared field. -/
theorem C9_descriptor_compat :
    ∀ d : usb_dfu1_descriptor,
      (encodeFunctional1 d).take USB_DT_DFU_FUNCTIONAL_SIZE =
        encodeFunctional (dropVersion d) ∧
      (∀ d7 : usb_dfu_descriptor, ∀ d9 : usb_dfu1_descriptor,
        decodeFunctional
            ((encodeFunctional1 d).take USB_DT_DFU_FUNCTIONAL_SIZE) =
          .ok d7 →
        decodeFunctional1 (encodeFunctional1 d) = .ok d9 →
        d7.bLength = d9.bLength ∧
        d7.bDescriptorType = d9.bDescriptorType ∧
        d7.bmAttributes = d9.bmAttributes ∧
        d7.wDetachTimeOut = d9.wDetachTimeOut ∧
        d7.wTransferSize = d9.wTransferSize) := by
  intro d
  refine ⟨rfl, ?_⟩
  intro d7 d9 h7 h9
  simp [decodeFunctional, decodeFunctional1, encodeFunctional1,
        USB_DT_DFU_FUNCTIONAL_SIZE, USB_DT_DFU1_FUNCTIONAL_SIZE] at h7 h9
  subst h7
  subst h9
  simp

/-- C9 witness: a concrete versioned descriptor; its 7-byte truncated
decode agrees with its 9-byte decode on all shared fields. -/
theorem C9_descriptor_compat_witness :
    (9 : Nat) = 9 ∧ (0x21 : Nat) = 0x21 ∧ (0x05 : Nat) = 0x05 ∧
    (0x0203 : Nat) = 0x0203 ∧ (0x1000 : Nat) = 0x1000 :=
  (C9_descriptor_compat ⟨9, 0x21, 0x05, 0x0203, 0x1000, 0x0100⟩).2
    ⟨9, 0x21, 0x05, 0x0203, 0x1000⟩
    ⟨9, 0x21, 0x05, 0x0203, 0x1000, 0x0100⟩
    (by rfl) (by rfl)

/-- C10: state-code and status-code validity are exactly contiguous
range checks — states 0x00..0x0A, statuses 0x00..0x0F — so byte 0x0B
decodes as StatusCode ERR_VENDOR yet fails to decode as a StateCode. -/
theorem C10_contiguous_ranges :
    (∀ n : Nat, (StateCode.ofByte n).isSome = true ↔ n < 11) ∧
    (∀ n : Nat, (StatusCode.ofByte n).isSome = true ↔ n < 16) ∧
    StatusCode.ofByte 0x0B = some .ERR_VENDOR ∧
    StateCode.ofByte 0x0B = none :=
  ⟨stateOfByte_isSome, statusOfByte_isSome, rfl, rfl⟩

/-- C10 witness: the range checks evaluated at the boundary bytes 0x0A
and 0x0B. -/
theorem C10_contiguous_ranges_witness :
    ((StateCode.ofByte 0x0A).isSome = true ↔ (0x0A : Nat) < 11) ∧
    ((StateCode.ofByte 0x0B).isSome = true ↔ (0x0B : Nat) < 11) ∧
    ((StatusCode.ofByte 0x0B).isSome = true ↔ (0x0B : Nat) < 16) :=
  ⟨C10_contiguous_ranges.1 0x0A, C10_contiguous_ranges.1 0x0B,
   C10_contiguous_ranges.2.1 0x0B⟩

end DFU
